import Mathlib

/-!
Shallow embedding of the dicom-rs DICOM reader (SnoozeTime/dicom-rs) in Lean 4.

Byte buffers are lists of naturals (each entry a byte value in 0..255).
The nom combinators of the source return IResult; here parsers return
PResult, an Except over the remaining input and the parsed value.
Rust panics (explicit panic!, failed assert_eq!/assert!, and arithmetic
underflow of unchecked usize subtraction, which aborts a debug build) are
modelled by the distinguished failure PFailure.panicked, kept separate from
the recoverable nom error kinds.  The recursive sequence/item parsers take
an explicit fuel argument (the source loops on ever-shorter suffixes of the
input); running out of fuel yields PFailure.fuelOut, which never occurs on
any input once the fuel exceeds the buffer length.
-/

namespace Dicom

/-- Endianness of multi-byte reads, mirroring nom::number::Endianness. -/
inductive Endianness where
  | Little
  | Big
deriving DecidableEq, Repr

/-- Compression schemes, from src/types.rs (enum CompressionScheme). -/
inductive CompressionScheme where
  | Jpeg2000Lossless
deriving DecidableEq, Repr

/-- Transfer syntax record, from src/types.rs (struct TransferSyntax). -/
structure TransferSyntax where
  endianness : Endianness
  is_vr_explicit : Bool
  compression_scheme : Option CompressionScheme
deriving DecidableEq, Repr

/-- Constructor TransferSyntax::with_compression_scheme from src/types.rs. -/
def TransferSyntax.with_compression_scheme (scheme : CompressionScheme) : TransferSyntax :=
  ⟨Endianness.Little, true, some scheme⟩

/-- Constructor TransferSyntax::little_endian_explicit from src/types.rs. -/
def TransferSyntax.little_endian_explicit : TransferSyntax :=
  ⟨Endianness.Little, true, none⟩

/-- Constructor TransferSyntax::big_endian_explicit from src/types.rs. -/
def TransferSyntax.big_endian_explicit : TransferSyntax :=
  ⟨Endianness.Big, true, none⟩

/-- Constructor TransferSyntax::little_endian_implicit from src/types.rs. -/
def TransferSyntax.little_endian_implicit : TransferSyntax :=
  ⟨Endianness.Little, false, none⟩

/-- Tags as (group, element) pairs.  The source enum (src/tag.rs, macro
tags!) has one named variant per dictionary row plus UNKNOWN(group, element);
since the generated match arms send each (group, element) pair to exactly one
variant, tag values are in bijection with their pairs and the parser-level
model identifies a tag with its pair.  (The dictionary-shaped model used for
the from_values/get_group claim is TagDict below.) -/
structure Tag where
  group : Nat
  element : Nat
deriving DecidableEq, Repr

/-- Constructor Tag::from_values at the parser level: the pair itself. -/
def Tag.from_values (group element : Nat) : Tag := ⟨group, element⟩

/-- Item start sentinel tag (FFFE,E000). -/
def Tag.xFFFExE000 : Tag := ⟨0xFFFE, 0xE000⟩

/-- Item delimitation sentinel tag (FFFE,E00D). -/
def Tag.xFFFExE00D : Tag := ⟨0xFFFE, 0xE00D⟩

/-- Sequence delimitation sentinel tag (FFFE,E0DD). -/
def Tag.xFFFExE0DD : Tag := ⟨0xFFFE, 0xE0DD⟩

/-- Pixel data tag (7FE0,0010). -/
def Tag.x7FE0x0010 : Tag := ⟨0x7FE0, 0x0010⟩

/-- Transfer syntax UID tag (0002,0010). -/
def Tag.x0002x0010 : Tag := ⟨0x0002, 0x0010⟩

/-- Failure modes of the byte parsers: nom streaming Incomplete, a nom
error (failed one_of / tag match), a Rust panic (assert failure, explicit
panic!, usize underflow), and fuel exhaustion of the embedding. -/
inductive PFailure where
  | incomplete
  | failed
  | panicked
  | fuelOut
deriving DecidableEq, Repr

/-- Result of a byte parser: either a failure or the remaining input
together with the parsed value (nom IResult). -/
abbrev PResult (α : Type) := Except PFailure (List Nat × α)

/-- Parser parse_u16 from src/parser/mod.rs: a 2-byte unsigned integer in
the given endianness (nom streaming le_u16 / be_u16). -/
def parse_u16 (buf : List Nat) (endian : Endianness) : PResult Nat :=
  match buf with
  | b0 :: b1 :: rest =>
    match endian with
    | Endianness.Little => Except.ok (rest, b0 + 256 * b1)
    | Endianness.Big => Except.ok (rest, 256 * b0 + b1)
  | _ => Except.error PFailure.incomplete

/-- Parser parse_u32 from src/parser/mod.rs: a 4-byte unsigned integer in
the given endianness (nom streaming le_u32 / be_u32). -/
def parse_u32 (buf : List Nat) (endian : Endianness) : PResult Nat :=
  match buf with
  | b0 :: b1 :: b2 :: b3 :: rest =>
    match endian with
    | Endianness.Little =>
      Except.ok (rest, b0 + 256 * b1 + 65536 * b2 + 16777216 * b3)
    | Endianness.Big =>
      Except.ok (rest, 16777216 * b0 + 65536 * b1 + 256 * b2 + b3)
  | _ => Except.error PFailure.incomplete

/-- Parser parse_tag from src/parser/mod.rs: two u16 (group then element)
resolved through Tag::from_values. -/
def parse_tag (buf : List Nat) (endian : Endianness) : PResult Tag :=
  match parse_u16 buf endian with
  | Except.error e => Except.error e
  | Except.ok (rest, group) =>
    match parse_u16 rest endian with
    | Except.error e => Except.error e
    | Except.ok (rest2, element) => Except.ok (rest2, Tag.from_values group element)

/-- Value representations, from src/vr.rs (macro vr!): the named two-letter
codes; UNKNOWN keeps the two characters of an unrecognized code (the source
stores them as a String, here as the two ASCII byte values). -/
inductive ValueRepresentation where
  | UL | CS | AG | DA | DS | DT | SH | ST | US | UI | LO | PN | AS | SL
  | OB | OD | OF | OL | OV | OW | SQ | SV | UC | UR | UT | UN | UV
  | UNKNOWN (c1 c2 : Nat)
deriving DecidableEq, Repr

/-- Predicate has_special_length from src/vr.rs: the fourth field of each
vr! entry; UNKNOWN codes are not special. -/
def ValueRepresentation.has_special_length : ValueRepresentation → Bool
  | UL => false
  | CS => false
  | AG => false
  | DA => false
  | DS => false
  | DT => false
  | SH => false
  | ST => false
  | US => false
  | UI => false
  | LO => false
  | PN => false
  | AS => false
  | SL => false
  | OB => true
  | OD => true
  | OF => true
  | OL => true
  | OV => true
  | OW => true
  | SQ => true
  | SV => true
  | UC => true
  | UR => true
  | UT => true
  | UN => true
  | UV => true
  | UNKNOWN _ _ => false

/-- Constructor ValueRepresentation::from_chars from src/vr.rs: the two
characters (given as ASCII codes) matched against the vr! table. -/
def ValueRepresentation.from_chars (c1 c2 : Nat) : ValueRepresentation :=
  if c1 = 85 ∧ c2 = 76 then UL
  else if c1 = 67 ∧ c2 = 83 then CS
  else if c1 = 65 ∧ c2 = 71 then AG
  else if c1 = 68 ∧ c2 = 65 then DA
  else if c1 = 68 ∧ c2 = 83 then DS
  else if c1 = 68 ∧ c2 = 84 then DT
  else if c1 = 83 ∧ c2 = 72 then SH
  else if c1 = 83 ∧ c2 = 84 then ST
  else if c1 = 85 ∧ c2 = 83 then US
  else if c1 = 85 ∧ c2 = 73 then UI
  else if c1 = 76 ∧ c2 = 79 then LO
  else if c1 = 80 ∧ c2 = 78 then PN
  else if c1 = 65 ∧ c2 = 83 then AS
  else if c1 = 83 ∧ c2 = 76 then SL
  else if c1 = 79 ∧ c2 = 66 then OB
  else if c1 = 79 ∧ c2 = 68 then OD
  else if c1 = 79 ∧ c2 = 70 then OF
  else if c1 = 79 ∧ c2 = 76 then OL
  else if c1 = 79 ∧ c2 = 86 then OV
  else if c1 = 79 ∧ c2 = 87 then OW
  else if c1 = 83 ∧ c2 = 81 then SQ
  else if c1 = 83 ∧ c2 = 86 then SV
  else if c1 = 85 ∧ c2 = 67 then UC
  else if c1 = 85 ∧ c2 = 82 then UR
  else if c1 = 85 ∧ c2 = 84 then UT
  else if c1 = 85 ∧ c2 = 78 then UN
  else if c1 = 85 ∧ c2 = 86 then UV
  else UNKNOWN c1 c2

/-- Membership in VR_CHARS from src/parser/mod.rs (all 26 ASCII letters in
both cases). -/
def is_vr_char (b : Nat) : Bool := (65 ≤ b ∧ b ≤ 90) ∨ (97 ≤ b ∧ b ≤ 122)

/-- One nom streaming one_of(VR_CHARS) step: empty input is Incomplete, a
byte outside VR_CHARS is a nom error. -/
def parse_one_vr_char (buf : List Nat) : PResult Nat :=
  match buf with
  | [] => Except.error PFailure.incomplete
  | c :: rest =>
    if is_vr_char c then Except.ok (rest, c) else Except.error PFailure.failed

/-- Parser parse_vr from src/parser/mod.rs: two characters from VR_CHARS
combined through ValueRepresentation::from_chars. -/
def parse_vr (buf : List Nat) : PResult ValueRepresentation :=
  match parse_one_vr_char buf with
  | Except.error e => Except.error e
  | Except.ok (rest, c1) =>
    match parse_one_vr_char rest with
    | Except.error e => Except.error e
    | Except.ok (rest2, c2) => Except.ok (rest2, ValueRepresentation.from_chars c1 c2)

/-- Parser parse_length from src/parser/mod.rs: no VR gives a 4-byte
length; a VR with special length discards a 2-byte padding then reads a
4-byte length; any other VR reads a 2-byte length. -/
def parse_length (buf : List Nat) (vr : Option ValueRepresentation)
    (endian : Endianness) : PResult Nat :=
  match vr with
  | some v =>
    if v.has_special_length then
      match parse_u16 buf endian with
      | Except.error e => Except.error e
      | Except.ok (buf2, _padding) => parse_u32 buf2 endian
    else
      match parse_u16 buf endian with
      | Except.error e => Except.error e
      | Except.ok (buf2, length) => Except.ok (buf2, length)
  | none => parse_u32 buf endian

/-- Parser parse_data from src/parser/mod.rs: take(length) bytes, nom
streaming (Incomplete when fewer remain). -/
def parse_data (buf : List Nat) (length : Nat) : PResult (List Nat) :=
  if length ≤ buf.length then Except.ok (List.drop length buf, List.take length buf)
  else Except.error PFailure.incomplete

mutual

/-- Element values, from src/types.rs (enum Value): leaf bytes or a parsed
sequence of items. -/
inductive Value where
  | Buf : List Nat → Value
  | Sequence : List Item → Value

/-- An item of a sequence, from src/parser/sq.rs (struct Item): a list of
data elements. -/
inductive Item where
  | mk : List DataElement → Item

/-- A data element, from src/types.rs (struct DataElement): tag, optional
VR, declared length and value. -/
inductive DataElement where
  | mk : Tag → Option ValueRepresentation → Nat → Value → DataElement

end

/-- Field elements of Item. -/
def Item.elements : Item → List DataElement
  | Item.mk es => es

/-- Field tag of DataElement. -/
def DataElement.tag : DataElement → Tag
  | DataElement.mk t _ _ _ => t

/-- Field vr of DataElement. -/
def DataElement.vr : DataElement → Option ValueRepresentation
  | DataElement.mk _ v _ _ => v

/-- Field length of DataElement. -/
def DataElement.length : DataElement → Nat
  | DataElement.mk _ _ l _ => l

/-- Field data of DataElement. -/
def DataElement.data : DataElement → Value
  | DataElement.mk _ _ _ d => d

mutual

/-- Parser parse_dataelement from src/parser/element.rs: tag in the active
endianness, a VR when the transfer syntax is explicit (nom cond), the
length, then the value bytes or a nested sequence. -/
def parse_dataelement (fuel : Nat) (buf : List Nat) (ts : TransferSyntax) :
    PResult DataElement :=
  match fuel with
  | 0 => Except.error PFailure.fuelOut
  | fuel + 1 =>
    match parse_tag buf ts.endianness with
    | Except.error e => Except.error e
    | Except.ok (buf1, tag) =>
      match (if ts.is_vr_explicit then
              match parse_vr buf1 with
              | Except.error e => Except.error e
              | Except.ok (b, v) => Except.ok (b, some v)
            else Except.ok (buf1, (none : Option ValueRepresentation))) with
      | Except.error e => Except.error e
      | Except.ok (buf2, vr) =>
        match parse_length buf2 vr ts.endianness with
        | Except.error e => Except.error e
        | Except.ok (buf3, length) =>
          match parse_element_data fuel buf3 length ts with
          | Except.error e => Except.error e
          | Except.ok (buf4, data) =>
            Except.ok (buf4, DataElement.mk tag vr length data)
termination_by structural fuel

/-- Parser parse_element_data from src/parser/element.rs: the length
sentinel 0xFFFFFFFF selects a sequence parse, otherwise exactly length raw
bytes are taken. -/
def parse_element_data (fuel : Nat) (buf : List Nat) (length : Nat)
    (ts : TransferSyntax) : PResult Value :=
  match fuel with
  | 0 => Except.error PFailure.fuelOut
  | fuel + 1 =>
    if length = 4294967295 then
      match parse_seq fuel buf length ts with
      | Except.error e => Except.error e
      | Except.ok (buf2, items) => Except.ok (buf2, Value.Sequence items)
    else
      match parse_data buf length with
      | Except.error e => Except.error e
      | Except.ok (buf2, data) => Except.ok (buf2, Value.Buf data)
termination_by structural fuel

/-- Parser parse_seq from src/parser/sq.rs: its parse_loop peels items; the
declared length argument is ignored by the source (TODO Length defined). -/
def parse_seq (fuel : Nat) (buf : List Nat) (_length : Nat)
    (ts : TransferSyntax) : PResult (List Item) :=
  match fuel with
  | 0 => Except.error PFailure.fuelOut
  | fuel + 1 => seq_loop fuel buf ts []
termination_by structural fuel

/-- One turn of the parse_loop of parse_seq (src/parser/sq.rs lines 41-58):
peek a LITTLE-endian tag; on (FFFE,E000) parse an item and loop, on
(FFFE,E0DD) consume the delimiter element with little-endian implicit VR
and stop, and on any other tag panic (the source line 56 panic!). -/
def seq_loop (fuel : Nat) (current : List Nat) (ts : TransferSyntax)
    (items : List Item) : PResult (List Item) :=
  match fuel with
  | 0 => Except.error PFailure.fuelOut
  | fuel + 1 =>
    match parse_tag current Endianness.Little with
    | Except.error e => Except.error e
    | Except.ok (_, next_tag) =>
      if next_tag = Tag.xFFFExE000 then
        match parse_item fuel current ts with
        | Except.error e => Except.error e
        | Except.ok (buf, item) => seq_loop fuel buf ts (items ++ [item])
      else if next_tag = Tag.xFFFExE0DD then
        match parse_dataelement fuel current TransferSyntax.little_endian_implicit with
        | Except.error e => Except.error e
        | Except.ok (buf, _) => Except.ok (buf, items)
      else Except.error PFailure.panicked
termination_by structural fuel

/-- Parser parse_item from src/parser/sq.rs: reads the leading tag with the
ACTIVE transfer syntax endianness (line 72), asserts it is (FFFE,E000)
(line 74, a panic when it is not), reads the 4-byte length (no VR) with the
active endianness, then runs the element loop with the byte budget. -/
def parse_item (fuel : Nat) (buf : List Nat) (ts : TransferSyntax) :
    PResult Item :=
  match fuel with
  | 0 => Except.error PFailure.fuelOut
  | fuel + 1 =>
    match parse_tag buf ts.endianness with
    | Except.error e => Except.error e
    | Except.ok (buf1, tag) =>
      if tag = Tag.xFFFExE000 then
        match parse_length buf1 none ts.endianness with
        | Except.error e => Except.error e
        | Except.ok (buf2, length) =>
          item_loop fuel (length = 4294967295) length buf2 ts []
      else Except.error PFailure.panicked
termination_by structural fuel

/-- One turn of the parse_loop of parse_item (src/parser/sq.rs lines
85-109): with undefined length, peek a LITTLE-endian tag and, on
(FFFE,E00D), consume the delimiter with little-endian implicit VR and stop;
with a defined length, stop when the remaining budget is exactly zero;
otherwise parse one element (item_step). -/
def item_loop (fuel : Nat) (is_len_undefined : Bool) (remaining_len : Nat)
    (current : List Nat) (ts : TransferSyntax) (elements : List DataElement) :
    PResult Item :=
  match fuel with
  | 0 => Except.error PFailure.fuelOut
  | fuel + 1 =>
    if is_len_undefined then
      match parse_tag current Endianness.Little with
      | Except.error e => Except.error e
      | Except.ok (_, next_tag) =>
        if next_tag = Tag.xFFFExE00D then
          match parse_dataelement fuel current TransferSyntax.little_endian_implicit with
          | Except.error e => Except.error e
          | Except.ok (buf, _) => Except.ok (buf, Item.mk elements)
        else item_step fuel is_len_undefined remaining_len current ts elements
    else if remaining_len = 0 then Except.ok (current, Item.mk elements)
    else item_step fuel is_len_undefined remaining_len current ts elements
termination_by structural fuel

/-- Body of the parse_loop of parse_item (src/parser/sq.rs lines 102-108):
parse one element, measure its consumed span as the slice length before the
parse minus the length after, and subtract it from the remaining budget.
The source subtraction remaining_len -= parsed_len is an unchecked usize
subtraction: when the span exceeds the budget a debug build panics on
underflow, modelled as PFailure.panicked. -/
def item_step (fuel : Nat) (is_len_undefined : Bool) (remaining_len : Nat)
    (current : List Nat) (ts : TransferSyntax) (elements : List DataElement) :
    PResult Item :=
  match fuel with
  | 0 => Except.error PFailure.fuelOut
  | fuel + 1 =>
    match parse_dataelement fuel current ts with
    | Except.error e => Except.error e
    | Except.ok (buf, data_element) =>
      let parsed_len := current.length - buf.length
      if remaining_len < parsed_len then Except.error PFailure.panicked
      else item_loop fuel is_len_undefined (remaining_len - parsed_len) buf ts
        (elements ++ [data_element])
termination_by structural fuel

end

/-- Decoded images, from src/img.rs (enum DicomImage); pixel grids are kept
as flat row-major lists, the order the source loops fill them in. -/
inductive DicomImage where
  | Grayscale16 : List Nat → DicomImage
  | Grayscale8 : List Nat → DicomImage
  | Jpeg2000 : List Nat → DicomImage
deriving DecidableEq, Repr

/-- Mask construction loop of parse_img_u16 (src/parser/image.rs lines
66-69): diff iterations of mask = (mask << 1) | 1 on a u16 (shifts wrap
modulo 2^16). -/
def mask_loop : Nat → Nat
  | 0 => 0
  | d + 1 => ((mask_loop d * 2) % 65536) ||| 1

/-- Per-sample transform of parse_img_u16 (src/parser/image.rs lines
64-77): when bits_stored is not 16 the raw sample is shifted left by
bits_allocated - bits_stored and the top stored bits are replicated into
the vacated low bits; otherwise the sample passes through unchanged.  All
u16 arithmetic wraps modulo 2^16. -/
def decode_sample (bits_allocated bits_stored grey_value : Nat) : Nat :=
  if bits_stored ≠ 16 then
    let diff := bits_allocated - bits_stored
    let mask := (mask_loop diff * 2 ^ bits_stored) % 65536
    let left := (grey_value * 2 ^ diff) % 65536
    left ||| ((left &&& mask) >>> bits_stored)
  else grey_value

/-- Pixel loop of parse_img_u8 (src/parser/image.rs lines 44-51): rows ×
columns single bytes, row-major. -/
def parse_pixels_u8 (buf : List Nat) (count : Nat) : PResult (List Nat) :=
  match count with
  | 0 => Except.ok (buf, [])
  | n + 1 =>
    match buf with
    | [] => Except.error PFailure.failed
    | b :: rest =>
      match parse_pixels_u8 rest n with
      | Except.error e => Except.error e
      | Except.ok (buf2, pixels) => Except.ok (buf2, b :: pixels)

/-- Pixel loop of parse_img_u16 (src/parser/image.rs lines 59-81): rows ×
columns 16-bit reads in the active endianness, each pushed through
decode_sample, row-major. -/
def parse_pixels_u16 (buf : List Nat) (endian : Endianness)
    (bits_allocated bits_stored count : Nat) : PResult (List Nat) :=
  match count with
  | 0 => Except.ok (buf, [])
  | n + 1 =>
    match parse_u16 buf endian with
    | Except.error e => Except.error e
    | Except.ok (rest, grey_value) =>
      match parse_pixels_u16 rest endian bits_allocated bits_stored n with
      | Except.error e => Except.error e
      | Except.ok (buf2, pixels) =>
        Except.ok (buf2, decode_sample bits_allocated bits_stored grey_value :: pixels)

/-- Parser parse_image from src/parser/image.rs: consumes the pixel element
header (tag, optional VR, length) under the active transfer syntax, asserts
the tag is (7FE0,0010) (line 14, a panic otherwise), hands the whole
remaining buffer over verbatim for JPEG2000, and otherwise decodes a raw
grayscale frame; a bits_allocated outside 8 and 16 hits the source line 37
panic!, modelled as PFailure.panicked. -/
def parse_image (buf : List Nat) (ts : TransferSyntax)
    (rows columns bits_allocated bits_stored : Nat) : PResult DicomImage :=
  match parse_tag buf ts.endianness with
  | Except.error e => Except.error e
  | Except.ok (buf1, tag) =>
    if tag = Tag.x7FE0x0010 then
      match (if ts.is_vr_explicit then
              match parse_vr buf1 with
              | Except.error e => Except.error e
              | Except.ok (b, v) => Except.ok (b, some v)
            else Except.ok (buf1, (none : Option ValueRepresentation))) with
      | Except.error e => Except.error e
      | Except.ok (buf2, vr) =>
        match parse_length buf2 vr ts.endianness with
        | Except.error e => Except.error e
        | Except.ok (buf3, _length) =>
          if ts.compression_scheme = some CompressionScheme.Jpeg2000Lossless then
            Except.ok ([], DicomImage.Jpeg2000 buf3)
          else
            if bits_allocated = 8 then
              match parse_pixels_u8 buf3 (rows * columns) with
              | Except.error e => Except.error e
              | Except.ok (rest, image) => Except.ok (rest, DicomImage.Grayscale8 image)
            else if bits_allocated = 16 then
              match parse_pixels_u16 buf3 ts.endianness bits_allocated bits_stored
                  (rows * columns) with
              | Except.error e => Except.error e
              | Except.ok (rest, image) => Except.ok (rest, DicomImage.Grayscale16 image)
            else Except.error PFailure.panicked
    else Except.error PFailure.panicked

/-- Error kinds of src/error.rs (enum DicomError), restricted to the
constructors the claims touch; message payloads are dropped except the
value bytes kept by TransferSyntaxNotSupported. -/
inductive DicomError where
  | ParseCS
  | ConvertTypeExpectBuf
  | ParseAS
  | IoError
  | TransferSyntaxNotSupported (value : List Nat)
  | NoSuchTag (tag : Tag)
deriving DecidableEq, Repr

/-- UTF-8 continuation byte (0x80..0xBF). -/
def is_cont (b : Nat) : Bool := 128 ≤ b ∧ b ≤ 191

/-- UTF-8 validity of a byte list, the success condition of Rust
std::str::from_utf8 (RFC 3629 table: no overlong forms, no surrogates, no
code points past U+10FFFF). -/
def utf8_valid : List Nat → Bool
  | [] => true
  | b :: rest =>
    if b ≤ 127 then utf8_valid rest
    else if 194 ≤ b ∧ b ≤ 223 then
      match rest with
      | c1 :: r => is_cont c1 && utf8_valid r
      | [] => false
    else if b = 224 then
      match rest with
      | c1 :: c2 :: r => (160 ≤ c1 ∧ c1 ≤ 191 : Bool) && is_cont c2 && utf8_valid r
      | _ => false
    else if (225 ≤ b ∧ b ≤ 236) ∨ b = 238 ∨ b = 239 then
      match rest with
      | c1 :: c2 :: r => is_cont c1 && is_cont c2 && utf8_valid r
      | _ => false
    else if b = 237 then
      match rest with
      | c1 :: c2 :: r => (128 ≤ c1 ∧ c1 ≤ 159 : Bool) && is_cont c2 && utf8_valid r
      | _ => false
    else if b = 240 then
      match rest with
      | c1 :: c2 :: c3 :: r =>
        (144 ≤ c1 ∧ c1 ≤ 191 : Bool) && is_cont c2 && is_cont c3 && utf8_valid r
      | _ => false
    else if 241 ≤ b ∧ b ≤ 243 then
      match rest with
      | c1 :: c2 :: c3 :: r => is_cont c1 && is_cont c2 && is_cont c3 && utf8_valid r
      | _ => false
    else if b = 244 then
      match rest with
      | c1 :: c2 :: c3 :: r =>
        (128 ≤ c1 ∧ c1 ≤ 143 : Bool) && is_cont c2 && is_cont c3 && utf8_valid r
      | _ => false
    else false

/-- Bytes of the match arm 1.2.840.10008.1.2.2 followed by one NUL
(src/types.rs line 151). -/
def uid_big_endian_explicit : List Nat :=
  [49, 46, 50, 46, 56, 52, 48, 46, 49, 48, 48, 48, 56, 46, 49, 46, 50, 46, 50, 0]

/-- Bytes of the match arm 1.2.840.10008.1.2.1 followed by one NUL
(src/types.rs line 152). -/
def uid_little_endian_explicit : List Nat :=
  [49, 46, 50, 46, 56, 52, 48, 46, 49, 48, 48, 48, 56, 46, 49, 46, 50, 46, 49, 0]

/-- Bytes of the match arm 1.2.840.10008.1.2 followed by one NUL
(src/types.rs line 153). -/
def uid_little_endian_implicit : List Nat :=
  [49, 46, 50, 46, 56, 52, 48, 46, 49, 48, 48, 48, 56, 46, 49, 46, 50, 0]

/-- Bytes of the match arm 1.2.840.10008.1.2.4.90, with no NUL
(src/types.rs line 154). -/
def uid_jpeg2000_lossless : List Nat :=
  [49, 46, 50, 46, 56, 52, 48, 46, 49, 48, 48, 48, 56, 46, 49, 46, 50, 46, 52, 46, 57, 48]

/-- Conversion TryFrom Value for TransferSyntax from src/types.rs lines
142-163: a Buf value is decoded as UTF-8 (failure gives the Utf8 error,
ParseCS) and matched against the four literal UID strings in source order;
anything else is TransferSyntaxNotSupported.  String equality after a
lossless UTF-8 decode is byte equality, so the match compares byte lists. -/
def TransferSyntax.try_from (v : Value) : Except DicomError TransferSyntax :=
  match v with
  | Value.Buf bytes =>
    if utf8_valid bytes then
      if bytes = uid_big_endian_explicit then
        Except.ok TransferSyntax.big_endian_explicit
      else if bytes = uid_little_endian_explicit then
        Except.ok TransferSyntax.little_endian_explicit
      else if bytes = uid_little_endian_implicit then
        Except.ok TransferSyntax.little_endian_implicit
      else if bytes = uid_jpeg2000_lossless then
        Except.ok (TransferSyntax.with_compression_scheme CompressionScheme.Jpeg2000Lossless)
      else Except.error (DicomError.TransferSyntaxNotSupported bytes)
    else Except.error DicomError.ParseCS
  | Value.Sequence _ => Except.error DicomError.ConvertTypeExpectBuf

/-- Accessor FromDicomValue for u16 from src/types.rs lines 192-209: a
Cursor read_u16 in the active endianness over the value bytes.  The cursor
reads the FIRST two bytes whatever the buffer length; fewer than two bytes
give an io::Error (UnexpectedEof), and a Sequence value the wrong-shape
error. -/
def u16_from_element (el : DataElement) (ts : TransferSyntax) :
    Except DicomError Nat :=
  match el.data with
  | Value.Buf data =>
    match data with
    | b0 :: b1 :: _ =>
      match ts.endianness with
      | Endianness.Little => Except.ok (b0 + 256 * b1)
      | Endianness.Big => Except.ok (256 * b0 + b1)
    | _ => Except.error DicomError.IoError
  | Value.Sequence _ => Except.error DicomError.ConvertTypeExpectBuf

/-- ASCII decimal digit. -/
def is_digit (b : Nat) : Bool := 48 ≤ b ∧ b ≤ 57

/-- Digit accumulation of the Rust u8 FromStr implementation: ASCII digits
only, checked arithmetic (any intermediate value past 255 is an overflow
error, returned as none). -/
def parse_u8_digits_aux : List Nat → Nat → Option Nat
  | [], acc => some acc
  | b :: rest, acc =>
    if is_digit b then
      if acc * 10 + (b - 48) ≤ 255 then parse_u8_digits_aux rest (acc * 10 + (b - 48))
      else none
    else none

/-- Rust u8 FromStr semantics (str::parse::<u8> as called by
Age::parse_from_str): an optional leading ASCII plus sign, then one or more
digits, value at most 255.  Minus signs, empty digit runs and any other
character are InvalidDigit errors; 256 and above are overflow errors. -/
def parse_u8_rust (s : List Nat) : Option Nat :=
  match s with
  | [] => none
  | b :: rest =>
    if b = 43 then
      match rest with
      | [] => none
      | _ => parse_u8_digits_aux rest 0
    else parse_u8_digits_aux s 0

/-- Age units, from src/types.rs (enum AgeFormat). -/
inductive AgeFormat where
  | Day
  | Week
  | Month
  | Year
deriving DecidableEq, Repr

/-- Conversion AgeFormat::parse_from_str from src/types.rs lines 244-257,
on the single byte of the one-character unit string: D, W, M or Y; any
other unit is the ParseAS error. -/
def AgeFormat.parse_from_byte (b : Nat) : Except DicomError AgeFormat :=
  if b = 68 then Except.ok AgeFormat.Day
  else if b = 87 then Except.ok AgeFormat.Week
  else if b = 77 then Except.ok AgeFormat.Month
  else if b = 89 then Except.ok AgeFormat.Year
  else Except.error DicomError.ParseAS

/-- An age value, from src/types.rs (struct Age): a count (u8 in the
source) and a unit. -/
structure Age where
  age : Nat
  format : AgeFormat
deriving DecidableEq, Repr

/-- Conversion Age::parse_from_str from src/types.rs lines 284-298, on the
bytes of the (ASCII) age string: exactly 4 bytes, the first three parsed by
the Rust u8 FromStr (ParseAS on failure), the fourth by
AgeFormat::parse_from_str.  On non-ASCII strings the source's byte slicing
repr[0..3] can panic on a char boundary; the claims are settled on ASCII
inputs, where this model matches the source exactly. -/
def Age.parse_from_str (repr : List Nat) : Except DicomError Age :=
  if repr.length ≠ 4 then Except.error DicomError.ParseAS
  else
    match parse_u8_rust (repr.take 3) with
    | none => Except.error DicomError.ParseAS
    | some age =>
      match repr.drop 3 with
      | [b] =>
        match AgeFormat.parse_from_byte b with
        | Except.error e => Except.error e
        | Except.ok format => Except.ok ⟨age, format⟩
      | _ => Except.error DicomError.ParseAS

/-- Accessor FromDicomValue for Age from src/types.rs lines 301-314: UTF-8
decode (ParseCS on failure) then Age::parse_from_str on a Buf value; a
Sequence value gives the wrong-shape error. -/
def age_from_element (el : DataElement) : Except DicomError Age :=
  match el.data with
  | Value.Buf data =>
    if utf8_valid data then Age.parse_from_str data
    else Except.error DicomError.ParseCS
  | Value.Sequence _ => Except.error DicomError.ConvertTypeExpectBuf

/-- One row of the build-time tag dictionary (build.rs, tags/tags.csv): the
group and element literals spliced into the tags! macro of src/tag.rs. -/
structure TagEntry where
  group : Nat
  element : Nat
deriving DecidableEq, Repr

/-- The tag type generated by the tags! macro of src/tag.rs, for an
arbitrary dictionary: one named variant per entry (carrying its row) plus
UNKNOWN(group, element). -/
inductive DictTag where
  | named : TagEntry → DictTag
  | UNKNOWN : Nat → Nat → DictTag
deriving DecidableEq, Repr

/-- Generated Tag::from_values (src/tag.rs lines 20-31): the match arms try
each dictionary row in order, producing that row's named variant on the
first (group, element) hit, and UNKNOWN(group, element) when no arm
matches. -/
def DictTag.from_values (dict : List TagEntry) (group element : Nat) : DictTag :=
  match dict with
  | [] => DictTag.UNKNOWN group element
  | entry :: rest =>
    if entry.group = group ∧ entry.element = element then DictTag.named entry
    else DictTag.from_values rest group element

/-- Generated Tag::get_group (src/tag.rs lines 50-55): a named variant
returns its row's group literal, UNKNOWN returns its stored group. -/
def DictTag.get_group : DictTag → Nat
  | DictTag.named entry => entry.group
  | DictTag.UNKNOWN group _ => group

/-! Theorems settling the claims. -/

/-- C1: the claim says all three sentinel tag reads are forced to
little-endian, so that under a big-endian transfer syntax the item parser
still recognizes the item-start bytes FE FF 00 E0.  The code forces
little-endian only in the peeks (parse_seq line 42, parse_item line 90);
parse_item line 72 reads the item-start tag with the ACTIVE endianness,
against the module's own doc comment (sq.rs lines 8-12, 30).  At the
little-endian-encoded item below, under the big-endian syntax, the tag
decodes to (FEFF,00E0), the line 74 assert_eq fails and the parser panics,
both directly and through parse_seq; the same bytes parse fine under the
little-endian syntax. -/
theorem c1_big_endian_item_tag_panics :
    (parse_tag [0xFE, 0xFF, 0x00, 0xE0] Endianness.Little
      = Except.ok ([], Tag.xFFFExE000))
    ∧ (parse_tag [0xFE, 0xFF, 0x00, 0xE0] Endianness.Big
      = Except.ok ([], Tag.from_values 0xFEFF 0x00E0))
    ∧ (parse_item 10
        [0xFE, 0xFF, 0x00, 0xE0, 0xFF, 0xFF, 0xFF, 0xFF,
         0xFE, 0xFF, 0x0D, 0xE0, 0, 0, 0, 0]
        TransferSyntax.little_endian_explicit = Except.ok ([], Item.mk []))
    ∧ (parse_item 10
        [0xFE, 0xFF, 0x00, 0xE0, 0xFF, 0xFF, 0xFF, 0xFF,
         0xFE, 0xFF, 0x0D, 0xE0, 0, 0, 0, 0]
        TransferSyntax.big_endian_explicit = Except.error PFailure.panicked)
    ∧ (parse_seq 10
        [0xFE, 0xFF, 0x00, 0xE0, 0xFF, 0xFF, 0xFF, 0xFF,
         0xFE, 0xFF, 0x0D, 0xE0, 0, 0, 0, 0,
         0xFE, 0xFF, 0xDD, 0xE0, 0, 0, 0, 0] 4294967295
        TransferSyntax.big_endian_explicit = Except.error PFailure.panicked) :=
  ⟨rfl, rfl, rfl, rfl, rfl⟩

/-- C2 counterexample: the claim tolerates the transfer-syntax UIDs with or
without a single trailing NUL, mapping 1.2.840.10008.1.2 to
little/implicit/none.  The code matches that UID only WITH the NUL: the
bare 17-byte string falls through to TransferSyntaxNotSupported. -/
theorem c2_counterexample :
    TransferSyntax.try_from
        (Value.Buf [49, 46, 50, 46, 56, 52, 48, 46, 49, 48, 48, 48, 56, 46, 49, 46, 50])
      = Except.error (DicomError.TransferSyntaxNotSupported
          [49, 46, 50, 46, 56, 52, 48, 46, 49, 48, 48, 48, 56, 46, 49, 46, 50])
    ∧ TransferSyntax.try_from
        (Value.Buf [49, 46, 50, 46, 56, 52, 48, 46, 49, 48, 48, 48, 56, 46, 49, 46, 50])
      ≠ Except.ok TransferSyntax.little_endian_implicit :=
  ⟨rfl, fun h => Except.noConfusion h⟩

/-- C2 (amended): the three uncompressed UIDs are recognized only with
exactly one trailing NUL byte and the JPEG2000 UID only without one, each
mapped to its record; every other valid-UTF-8 byte string fails with
TransferSyntaxNotSupported, invalid UTF-8 fails with the UTF-8 conversion
error, and a Sequence value fails with the wrong-shape error. -/
theorem c2_transfer_syntax_uid_mapping :
    (TransferSyntax.try_from (Value.Buf uid_big_endian_explicit)
      = Except.ok TransferSyntax.big_endian_explicit)
    ∧ (TransferSyntax.try_from (Value.Buf uid_little_endian_explicit)
      = Except.ok TransferSyntax.little_endian_explicit)
    ∧ (TransferSyntax.try_from (Value.Buf uid_little_endian_implicit)
      = Except.ok TransferSyntax.little_endian_implicit)
    ∧ (TransferSyntax.try_from (Value.Buf uid_jpeg2000_lossless)
      = Except.ok (TransferSyntax.with_compression_scheme CompressionScheme.Jpeg2000Lossless))
    ∧ (∀ bytes : List Nat, utf8_valid bytes = true →
        bytes ≠ uid_big_endian_explicit → bytes ≠ uid_little_endian_explicit →
        bytes ≠ uid_little_endian_implicit → bytes ≠ uid_jpeg2000_lossless →
        TransferSyntax.try_from (Value.Buf bytes)
          = Except.error (DicomError.TransferSyntaxNotSupported bytes))
    ∧ (∀ bytes : List Nat, utf8_valid bytes = false →
        TransferSyntax.try_from (Value.Buf bytes) = Except.error DicomError.ParseCS)
    ∧ (∀ items : List Item, TransferSyntax.try_from (Value.Sequence items)
        = Except.error DicomError.ConvertTypeExpectBuf) := by
  refine ⟨rfl, rfl, rfl, rfl, ?_, ?_, ?_⟩
  · intro bytes h h1 h2 h3 h4
    simp [TransferSyntax.try_from, h, h1, h2, h3, h4]
  · intro bytes h
    simp [TransferSyntax.try_from, h]
  · intro items
    rfl

/-- C2 witness: the single byte A is valid UTF-8 and none of the four UID
byte strings, so the conversion rejects it with TransferSyntaxNotSupported. -/
theorem c2_witness :
    TransferSyntax.try_from (Value.Buf [65])
      = Except.error (DicomError.TransferSyntaxNotSupported [65]) :=
  (c2_transfer_syntax_uid_mapping.2.2.2.2.1 [65]
    (by decide) (by decide) (by decide) (by decide) (by decide))

/-- C5 counterexample: the claim says an unexpected peeked tag under an
undefined-length sequence yields a structural parse error and the parser
never panics; the source parse_seq line 56 is an explicit panic!.  Tag
(0008,0000) is neither sentinel, and the parser panics. -/
theorem c5_counterexample :
    parse_seq 10 [0x08, 0, 0, 0, 0, 0, 0, 0] 4294967295
      TransferSyntax.little_endian_explicit = Except.error PFailure.panicked := rfl

/-- C5 (amended): whenever the peeked little-endian tag at the head of an
undefined-length sequence is neither the item start (FFFE,E000) nor the
sequence delimiter (FFFE,E0DD), parse_seq PANICS (source line 56 panic!)
instead of returning a structural parse error. -/
theorem c5_unexpected_tag_panics :
    ∀ (fuel : Nat) (buf rest : List Nat) (len : Nat) (ts : TransferSyntax) (t : Tag),
    parse_tag buf Endianness.Little = Except.ok (rest, t) →
    t ≠ Tag.xFFFExE000 → t ≠ Tag.xFFFExE0DD →
    parse_seq (fuel + 2) buf len ts = Except.error PFailure.panicked := by
  intro fuel buf rest len ts t hpeek h1 h2
  simp [parse_seq, seq_loop, hpeek, h1, h2]

/-- C5 witness: on the concrete buffer whose peeked little-endian tag is
(0008,0000), parse_seq panics. -/
theorem c5_witness :
    parse_seq 2 [0x08, 0, 0, 0] 0 TransferSyntax.big_endian_explicit
      = Except.error PFailure.panicked :=
  c5_unexpected_tag_panics 0 [0x08, 0, 0, 0] [] 0
    TransferSyntax.big_endian_explicit (Tag.from_values 8 0)
    rfl (by decide) (by decide)

/-- C9 counterexample: the claim says the u16 accessor fails on every Bytes
value whose length is not 2, including longer ones; the code's cursor reads
the first two bytes of the 3-byte buffer and succeeds with 513. -/
theorem c9_counterexample :
    u16_from_element (DataElement.mk Tag.x0002x0010 none 3 (Value.Buf [1, 2, 3]))
      TransferSyntax.little_endian_implicit = Except.ok 513 := rfl

/-- C9 (amended): the u16 accessor decodes the first two bytes of any Bytes
value of length at least two under the active endianness (excess bytes are
ignored), fails with the io error on zero- or one-byte values, and fails
with the wrong-shape error on a Sequence value. -/
theorem c9_u16_accessor :
    ∀ (t : Tag) (vr : Option ValueRepresentation) (len b0 b1 : Nat)
      (rest : List Nat) (ts : TransferSyntax) (items : List Item),
    (u16_from_element (DataElement.mk t vr len (Value.Buf (b0 :: b1 :: rest))) ts
      = Except.ok (match ts.endianness with
          | Endianness.Little => b0 + 256 * b1
          | Endianness.Big => 256 * b0 + b1))
    ∧ (u16_from_element (DataElement.mk t vr len (Value.Buf [])) ts
      = Except.error DicomError.IoError)
    ∧ (u16_from_element (DataElement.mk t vr len (Value.Buf [b0])) ts
      = Except.error DicomError.IoError)
    ∧ (u16_from_element (DataElement.mk t vr len (Value.Sequence items)) ts
      = Except.error DicomError.ConvertTypeExpectBuf) := by
  intro t vr len b0 b1 rest ts items
  refine ⟨?_, rfl, rfl, rfl⟩
  cases h : ts.endianness <;> simp [u16_from_element, DataElement.data, h]

/-- C10: Tag::from_values followed by get_group is the identity on the
group component for every dictionary the tags! macro could be instantiated
with: a named variant returns its matching row's group literal, and an
UNKNOWN tag returns the stored group. -/
theorem c10_from_values_get_group :
    ∀ (dict : List TagEntry) (group element : Nat),
    (DictTag.from_values dict group element).get_group = group := by
  intro dict group element
  induction dict with
  | nil => rfl
  | cons entry rest ih =>
    by_cases h : entry.group = group ∧ entry.element = element
    · obtain ⟨h1, h2⟩ := h
      simp [DictTag.from_values, h1, h2, DictTag.get_group]
    · simp [DictTag.from_values, h]
      exact ih

/-- C3: the three length-framing cases of parse_length, spelled out at the
byte level for both endiannesses over any buffer of at least six bytes: no
VR reads a 4-byte length in the active endianness; a present, non-special
VR (unknown codes included) reads a 2-byte length; a special VR discards 2
reserved bytes and reads a 4-byte length.  The specialness of a VR is
exactly membership in the thirteen listed codes, and the two S5 example
decodes hold. -/
theorem c3_parse_length_rules :
    ∀ (v : ValueRepresentation) (e : Endianness) (b0 b1 b2 b3 b4 b5 : Nat)
      (rest : List Nat),
    (parse_length (b0 :: b1 :: b2 :: b3 :: b4 :: b5 :: rest) none e
      = Except.ok (b4 :: b5 :: rest, match e with
          | Endianness.Little => b0 + 256 * b1 + 65536 * b2 + 16777216 * b3
          | Endianness.Big => 16777216 * b0 + 65536 * b1 + 256 * b2 + b3))
    ∧ (v.has_special_length = false →
      parse_length (b0 :: b1 :: b2 :: b3 :: b4 :: b5 :: rest) (some v) e
        = Except.ok (b2 :: b3 :: b4 :: b5 :: rest, match e with
            | Endianness.Little => b0 + 256 * b1
            | Endianness.Big => 256 * b0 + b1))
    ∧ (v.has_special_length = true →
      parse_length (b0 :: b1 :: b2 :: b3 :: b4 :: b5 :: rest) (some v) e
        = Except.ok (rest, match e with
            | Endianness.Little => b2 + 256 * b3 + 65536 * b4 + 16777216 * b5
            | Endianness.Big => 16777216 * b2 + 65536 * b3 + 256 * b4 + b5))
    ∧ (v.has_special_length = true ↔
        (v = ValueRepresentation.OB ∨ v = ValueRepresentation.OD ∨
         v = ValueRepresentation.OF ∨ v = ValueRepresentation.OL ∨
         v = ValueRepresentation.OV ∨ v = ValueRepresentation.OW ∨
         v = ValueRepresentation.SQ ∨ v = ValueRepresentation.SV ∨
         v = ValueRepresentation.UC ∨ v = ValueRepresentation.UR ∨
         v = ValueRepresentation.UT ∨ v = ValueRepresentation.UN ∨
         v = ValueRepresentation.UV))
    ∧ parse_length [0x00, 0x10, 0x00, 0x03, 0x02, 0x02]
        (some ValueRepresentation.UV) Endianness.Big = Except.ok ([], 0x00030202)
    ∧ parse_length [0x00, 0x10, 0x00, 0x03, 0x02, 0x02]
        (some ValueRepresentation.UL) Endianness.Big
        = Except.ok ([0x00, 0x03, 0x02, 0x02], 0x10) := by
  intro v e b0 b1 b2 b3 b4 b5 rest
  refine ⟨?_, ?_, ?_, ?_, rfl, rfl⟩
  · cases e <;> rfl
  · intro h
    cases e <;> simp [parse_length, h, parse_u16]
  · intro h
    cases e <;> simp [parse_length, h, parse_u16, parse_u32]
  · cases v <;> simp [ValueRepresentation.has_special_length]

/-- C3 witness: the non-special branch at VR UL, big-endian, on the S5
bytes, through the general rule. -/
theorem c3_witness :
    parse_length [0x00, 0x10, 0x00, 0x03, 0x02, 0x02]
      (some ValueRepresentation.UL) Endianness.Big
      = Except.ok ([0x00, 0x03, 0x02, 0x02], 0x10) :=
  (c3_parse_length_rules ValueRepresentation.UL Endianness.Big
      0x00 0x10 0x00 0x03 0x02 0x02 []).2.1 (by decide)

/-- C4 counterexample: the claim says an element overrunning the declared
item length is an error returned to the caller.  In the item below the
declared length is 2 but the single element spans 12 bytes; the source's
unchecked subtraction remaining_len -= parsed_len underflows and the parser
panics instead of returning an error. -/
theorem c4_counterexample :
    parse_item 10
      [0xFE, 0xFF, 0x00, 0xE0, 0x02, 0x00, 0x00, 0x00,
       0x08, 0x00, 0x00, 0x00, 0x04, 0x00, 0x00, 0x00, 1, 2, 3, 4]
      TransferSyntax.little_endian_implicit = Except.error PFailure.panicked := rfl

/-- C4 (amended): for a defined item length the element loop stops exactly
when the remaining budget is zero, and otherwise decrements the budget by
each parsed element's consumed span (slice length before the parse minus
after); but an element whose span exceeds the remaining budget makes the
unchecked usize subtraction underflow, a PANIC (debug profile abort), not
an error returned to the caller. -/
theorem c4_item_budget_loop :
    ∀ (fuel remaining_len : Nat) (current buf : List Nat) (ts : TransferSyntax)
      (elements : List DataElement) (el : DataElement),
    (item_loop (fuel + 1) false 0 current ts elements
      = Except.ok (current, Item.mk elements))
    ∧ (remaining_len ≠ 0 →
      parse_dataelement fuel current ts = Except.ok (buf, el) →
      ((current.length - buf.length ≤ remaining_len →
        item_loop (fuel + 2) false remaining_len current ts elements
          = item_loop fuel false (remaining_len - (current.length - buf.length))
              buf ts (elements ++ [el]))
       ∧ (remaining_len < current.length - buf.length →
        item_loop (fuel + 2) false remaining_len current ts elements
          = Except.error PFailure.panicked))) := by
  intro fuel remaining_len current buf ts elements el
  constructor
  · simp [item_loop]
  · intro hrem hel
    constructor
    · intro hle
      simp [item_loop, item_step, hrem, hel, Nat.not_lt.mpr hle]
    · intro hlt
      simp [item_loop, item_step, hrem, hel, hlt]

/-- C4 witness: a 12-byte element against a remaining budget of 2 panics
the loop, through the general rule. -/
theorem c4_witness :
    item_loop 4 false 2 [0x08, 0x00, 0x00, 0x00, 0x04, 0x00, 0x00, 0x00, 1, 2, 3, 4]
      TransferSyntax.little_endian_implicit [] = Except.error PFailure.panicked :=
  ((c4_item_budget_loop 2 2
      [0x08, 0x00, 0x00, 0x00, 0x04, 0x00, 0x00, 0x00, 1, 2, 3, 4] []
      TransferSyntax.little_endian_implicit []
      (DataElement.mk (Tag.from_values 8 0) none 4 (Value.Buf [1, 2, 3, 4]))).2
    (by decide) rfl).2 (by decide)

/-- C7 counterexample: the claim says an unsupported bits_allocated makes
the parse fail with the ImageFormatNotSupported error kind and not a panic;
at bits_allocated 32 over an uncompressed little-endian explicit stream the
source line 37 panic! fires (ImageFormatNotSupported exists in error.rs but
is never produced here). -/
theorem c7_counterexample :
    parse_image [0xE0, 0x7F, 0x10, 0x00, 0x4F, 0x42, 0, 0, 0, 0, 0, 0]
      TransferSyntax.little_endian_explicit 1 1 32 8
      = Except.error PFailure.panicked := rfl

/-- C7 (amended): whenever pixel decoding reaches the raw-grayscale branch
(uncompressed transfer syntax) with bits_allocated neither 8 nor 16, the
parser PANICS (source line 37) rather than returning an error; stated over
the little-endian explicit header tag (7FE0,0010), VR OB, zero length,
arbitrary trailing bytes and dimensions. -/
theorem c7_unsupported_bits_allocated_panics :
    ∀ (rest : List Nat) (rows columns bits_allocated bits_stored : Nat),
    bits_allocated ≠ 8 → bits_allocated ≠ 16 →
    parse_image ([0xE0, 0x7F, 0x10, 0x00, 0x4F, 0x42, 0, 0, 0, 0, 0, 0] ++ rest)
      TransferSyntax.little_endian_explicit rows columns bits_allocated bits_stored
      = Except.error PFailure.panicked := by
  intro rest rows columns bits_allocated bits_stored h8 h16
  simp [parse_image, parse_tag, parse_u16, Tag.from_values, Tag.x7FE0x0010,
    TransferSyntax.little_endian_explicit, parse_vr, parse_one_vr_char, is_vr_char,
    ValueRepresentation.from_chars, parse_length, ValueRepresentation.has_special_length,
    parse_u32, h8, h16]

/-- C7 witness: bits_allocated 7 with concrete dimensions panics, through
the general rule. -/
theorem c7_witness :
    parse_image [0xE0, 0x7F, 0x10, 0x00, 0x4F, 0x42, 0, 0, 0, 0, 0, 0, 5, 5]
      TransferSyntax.little_endian_explicit 2 3 7 12
      = Except.error PFailure.panicked :=
  c7_unsupported_bits_allocated_panics [5, 5] 2 3 7 12 (by decide) (by decide)

/-- C8 counterexample: 999Y is four bytes, its first three are the ASCII
digits 9 9 9 and its fourth is the unit Y, so the claim requires the Age
accessor to succeed; the source parses the digits as a Rust u8, 999
overflows, and the accessor fails with the ParseAS conversion error. -/
theorem c8_counterexample :
    (is_digit 57 = true ∧ AgeFormat.parse_from_byte 89 = Except.ok AgeFormat.Year)
    ∧ Age.parse_from_str [57, 57, 57, 89] = Except.error DicomError.ParseAS :=
  ⟨⟨rfl, rfl⟩, rfl⟩

/-- C8 (amended): on 4-byte ASCII values the Age accessor succeeds exactly
when the first three bytes parse as a Rust u8 (ASCII digits after an
optional leading plus sign, value at most 255) and the fourth byte is one
of D, W, M, Y, returning that number and unit; every other length fails
with ParseAS, and the spec's S6 examples hold. -/
theorem c8_age_accessor :
    ∀ (b0 b1 b2 b3 n : Nat) (u : AgeFormat) (bytes : List Nat),
    (b0 < 128 → b1 < 128 → b2 < 128 → b3 < 128 →
      (Age.parse_from_str [b0, b1, b2, b3] = Except.ok ⟨n, u⟩ ↔
        parse_u8_rust [b0, b1, b2] = some n
        ∧ AgeFormat.parse_from_byte b3 = Except.ok u))
    ∧ (bytes.length ≠ 4 → Age.parse_from_str bytes = Except.error DicomError.ParseAS)
    ∧ Age.parse_from_str [48, 49, 52, 89] = Except.ok ⟨14, AgeFormat.Year⟩
    ∧ Age.parse_from_str [48, 48, 52, 87] = Except.ok ⟨4, AgeFormat.Week⟩
    ∧ Age.parse_from_str [52, 87] = Except.error DicomError.ParseAS
    ∧ Age.parse_from_str [48, 48, 48, 86] = Except.error DicomError.ParseAS := by
  intro b0 b1 b2 b3 n u bytes
  refine ⟨?_, ?_, rfl, rfl, rfl, rfl⟩
  · intro _ _ _ _
    cases h1 : parse_u8_rust [b0, b1, b2] with
    | none => simp [Age.parse_from_str, h1]
    | some m =>
      cases h2 : AgeFormat.parse_from_byte b3 with
      | error err =>
        simp [Age.parse_from_str, h1, h2]
      | ok fmt =>
        simp [Age.parse_from_str, h1, h2, Age.mk.injEq, eq_comm]
  · intro h
    simp [Age.parse_from_str, h]

/-- C8 witness: 014Y decodes to fourteen years through the general rule. -/
theorem c8_witness :
    Age.parse_from_str [48, 49, 52, 89] = Except.ok ⟨14, AgeFormat.Year⟩ :=
  ((c8_age_accessor 48 49 52 89 14 AgeFormat.Year []).1
    (by decide) (by decide) (by decide) (by decide)).mpr ⟨rfl, rfl⟩

/-- The u16 mask loop builds the all-ones value of its width: diff
iterations give 2 ^ diff - 1 (no wrap while diff stays within 16 bits). -/
theorem mask_loop_eq (d : Nat) (hd : d ≤ 16) : mask_loop d = 2 ^ d - 1 := by
  induction d with
  | zero => rfl
  | succ k ih =>
    have hk16 : k ≤ 16 := by omega
    have hm : mask_loop k = 2 ^ k - 1 := ih hk16
    have hpow : 2 ^ k ≤ 2 ^ 16 := Nat.pow_le_pow_right (by norm_num) hk16
    have hklt : (2 ^ k - 1) * 2 < 65536 := by
      have h15 : 2 ^ k ≤ 2 ^ 15 := Nat.pow_le_pow_right (by norm_num) (by omega)
      have : (2:Nat) ^ 15 = 32768 := by norm_num
      omega
    show ((mask_loop k * 2) % 65536) ||| 1 = 2 ^ (k + 1) - 1
    rw [hm, Nat.mod_eq_of_lt hklt]
    have hor := Nat.mul_add_lt_is_or (i := 1) (b := 1) (by norm_num) (2 ^ k - 1)
    have hone : (1:Nat) ≤ 2 ^ k := Nat.one_le_two_pow
    have hsucc : 2 ^ (k + 1) = 2 ^ k * 2 := by rw [pow_succ]
    have h2 : (2 ^ k - 1) * 2 = 2 ^ 1 * (2 ^ k - 1) := by ring
    rw [h2, ← hor]
    omega

/-- Masking a value below 2 ^ (bs + diff) with diff ones shifted up by bs
keeps exactly its bits at positions bs and above. -/
theorem and_mask_bits (x bs diff : Nat) (hx : x < 2 ^ (bs + diff)) :
    x &&& ((2 ^ diff - 1) <<< bs) = (x >>> bs) <<< bs := by
  apply Nat.eq_of_testBit_eq
  intro i
  simp only [Nat.testBit_and, Nat.testBit_shiftLeft, Nat.testBit_shiftRight,
    Nat.testBit_two_pow_sub_one, ge_iff_le]
  by_cases hbs : bs ≤ i
  · have hadd : bs + (i - bs) = i := by omega
    rw [hadd]
    by_cases hd : i - bs < diff
    · simp [hbs, hd]
    · have hfalse : x.testBit i = false :=
        Nat.testBit_lt_two_pow
          (lt_of_lt_of_le hx (Nat.pow_le_pow_right (by norm_num) (by omega)))
      simp [hbs, hd, hfalse]
  · simp [hbs]

/-- Division bound for the replicated bits: a stored sample below 2 ^ bs
keeps its top diff bits below 2 ^ diff. -/
theorem div_replicated_lt (bs diff v : Nat) (hd : diff ≤ bs) (hv : v < 2 ^ bs) :
    v / 2 ^ (bs - diff) < 2 ^ diff := by
  rw [Nat.div_lt_iff_lt_mul (Nat.pos_pow_of_pos _ (by norm_num))]
  have : 2 ^ diff * 2 ^ (bs - diff) = 2 ^ bs := by
    rw [← pow_add]
    congr 1
    omega
  omega

/-- Closed form of the shift-and-replicate expression: shifting v up by
diff and replicating its top diff bits into the vacated low bits computes
2 ^ diff * v + v / 2 ^ (bs - diff). -/
theorem or_masked_closed (bs diff v : Nat) (hd : diff ≤ bs) (hv : v < 2 ^ bs) :
    (v * 2 ^ diff) ||| (((v * 2 ^ diff) &&& ((2 ^ diff - 1) <<< bs)) >>> bs)
      = 2 ^ diff * v + v / 2 ^ (bs - diff) := by
  have hx : v * 2 ^ diff < 2 ^ (bs + diff) := by
    rw [pow_add]
    exact Nat.mul_lt_mul_of_lt_of_le hv (le_refl _) (Nat.pos_pow_of_pos _ (by norm_num))
  rw [and_mask_bits _ _ _ hx]
  have hsh : ∀ a : Nat, (a <<< bs) >>> bs = a := by
    intro a
    rw [Nat.shiftLeft_eq, Nat.shiftRight_eq_div_pow]
    exact Nat.mul_div_cancel _ (Nat.pos_pow_of_pos _ (by norm_num))
  rw [hsh ((v * 2 ^ diff) >>> bs)]
  have hdiv : (v * 2 ^ diff) >>> bs = v / 2 ^ (bs - diff) := by
    rw [Nat.shiftRight_eq_div_pow]
    have hsplit : 2 ^ bs = 2 ^ (bs - diff) * 2 ^ diff := by
      rw [← pow_add]
      congr 1
      omega
    rw [hsplit, Nat.mul_div_mul_right _ _ (Nat.pos_pow_of_pos _ (by norm_num))]
  rw [hdiv, mul_comm v (2 ^ diff),
    ← Nat.mul_add_lt_is_or (div_replicated_lt bs diff v hd hv) v]

/-- Closed form of the per-sample pixel transform for 16 allocated bits and
bs stored bits, bs below 16 with 16 - bs at most bs: the decoded sample is
2 ^ (16 - bs) * v + v / 2 ^ (bs - (16 - bs)). -/
theorem decode_sample_closed (bs v : Nat) (h1 : bs < 16) (h2 : 16 - bs ≤ bs)
    (hv : v < 2 ^ bs) :
    decode_sample 16 bs v = 2 ^ (16 - bs) * v + v / 2 ^ (bs - (16 - bs)) := by
  have hbs : bs ≠ 16 := by omega
  have hd16 : 16 - bs ≤ 16 := by omega
  have hbsd : bs + (16 - bs) = 16 := by omega
  have hmaskb : (2 ^ (16 - bs) - 1) * 2 ^ bs < 65536 := by
    have ha : (2 ^ (16 - bs) - 1) * 2 ^ bs < 2 ^ (16 - bs) * 2 ^ bs := by
      have : 2 ^ (16 - bs) - 1 < 2 ^ (16 - bs) := by
        have := Nat.one_le_two_pow (n := 16 - bs)
        omega
      exact Nat.mul_lt_mul_of_lt_of_le this (le_refl _)
        (Nat.pos_pow_of_pos _ (by norm_num))
    have hb : 2 ^ (16 - bs) * 2 ^ bs = 65536 := by
      rw [← pow_add]
      have : 16 - bs + bs = 16 := by omega
      rw [this]
      norm_num
    omega
  have hleftb : v * 2 ^ (16 - bs) < 65536 := by
    have ha : v * 2 ^ (16 - bs) < 2 ^ bs * 2 ^ (16 - bs) :=
      Nat.mul_lt_mul_of_lt_of_le hv (le_refl _) (Nat.pos_pow_of_pos _ (by norm_num))
    have hb : 2 ^ bs * 2 ^ (16 - bs) = 65536 := by
      rw [← pow_add, hbsd]
      norm_num
    omega
  unfold decode_sample
  rw [if_pos hbs]
  simp only [mask_loop_eq (16 - bs) hd16, Nat.mod_eq_of_lt hmaskb,
    Nat.mod_eq_of_lt hleftb]
  rw [← Nat.shiftLeft_eq (2 ^ (16 - bs) - 1) bs]
  exact or_masked_closed bs (16 - bs) v h2 hv

/-- C6: for bits_allocated 16 and bits_stored strictly below it (with the
width difference at most bits_stored), the decoder maps each raw sample v
below 2 ^ bits_stored to exactly the spec formula
(v shifted left by diff) or-ed with its masked top bits shifted back down,
the mapping is strictly monotone in the raw sample, and for bits_stored 16
the decoder reproduces the sample verbatim. -/
theorem c6_bit_extension_monotone :
    ∀ (bs v v1 v2 : Nat), bs < 16 → 16 - bs ≤ bs →
    v < 2 ^ bs → v1 < 2 ^ bs → v2 < 2 ^ bs →
    (decode_sample 16 bs v
      = (v <<< (16 - bs)) |||
        (((v <<< (16 - bs)) &&& (((1 <<< (16 - bs)) - 1) <<< bs)) >>> bs))
    ∧ (v1 < v2 → decode_sample 16 bs v1 < decode_sample 16 bs v2)
    ∧ (∀ w, decode_sample 16 16 w = w) := by
  intro bs v v1 v2 hbs hdiff hv hv1 hv2
  refine ⟨?_, ?_, ?_⟩
  · rw [decode_sample_closed bs v hbs hdiff hv, Nat.shiftLeft_eq v,
      Nat.shiftLeft_eq 1, one_mul]
    exact (or_masked_closed bs (16 - bs) v hdiff hv).symm
  · intro hlt
    rw [decode_sample_closed bs v1 hbs hdiff hv1,
      decode_sample_closed bs v2 hbs hdiff hv2]
    have hr1 : v1 / 2 ^ (bs - (16 - bs)) < 2 ^ (16 - bs) :=
      div_replicated_lt bs (16 - bs) v1 hdiff hv1
    have hstep : 2 ^ (16 - bs) * v1 + v1 / 2 ^ (bs - (16 - bs))
        < 2 ^ (16 - bs) * (v1 + 1) := by
      have : 2 ^ (16 - bs) * (v1 + 1) = 2 ^ (16 - bs) * v1 + 2 ^ (16 - bs) := by ring
      omega
    have hmono : 2 ^ (16 - bs) * (v1 + 1) ≤ 2 ^ (16 - bs) * v2 :=
      Nat.mul_le_mul_left _ hlt
    have htail : 2 ^ (16 - bs) * v2 ≤ 2 ^ (16 - bs) * v2 + v2 / 2 ^ (bs - (16 - bs)) :=
      Nat.le_add_right _ _
    omega
  · intro w
    simp [decode_sample]

/-- C6 witness: bits_stored 12, raw samples 5 and 6: the formula holds at 5
and the decode is strictly monotone from 5 to 6. -/
theorem c6_witness :
    (decode_sample 16 12 5
      = (5 <<< 4) ||| (((5 <<< 4) &&& (((1 <<< 4) - 1) <<< 12)) >>> 12))
    ∧ decode_sample 16 12 5 < decode_sample 16 12 6 :=
  ⟨(c6_bit_extension_monotone 12 5 5 6 (by decide) (by decide) (by decide)
      (by decide) (by decide)).1,
   (c6_bit_extension_monotone 12 5 5 6 (by decide) (by decide) (by decide)
      (by decide) (by decide)).2.1 (by decide)⟩

end Dicom
